import Mathlib

/-!
Shallow embedding of `src/st_keyword_volumes_app.py` (keyword volume
analysis tool).  Python numbers are modelled exactly: integers as `ℤ`,
floats as `ℚ` (the arithmetic of this program — sums, true division,
`* 100`, `round` — stays inside the rationals for exact inputs), and a
missing value (`None`) as `Option.none`.  Python dicts appear as
association lists in insertion order, matching dict iteration order;
the program's dicts have distinct keys.  String comparison is
lexicographic on code points, exactly as in Python.
-/

set_option linter.unusedVariables false

/-- A Python numeric value: `int` or `float`. -/
inductive PyNum where
  | int (z : ℤ)
  | float (q : ℚ)
  deriving DecidableEq

/-- Numeric value of a `PyNum` (Python arithmetic promotes `int` to
`float` as needed; both embed into `ℚ`). -/
def PyNum.toRat : PyNum → ℚ
  | .int z => (z : ℚ)
  | .float q => q

/-- A cell value in a provider record or in the output table: a number
or a string (the missing marker `"N/A"`, a failure message, ...). -/
inductive Cell where
  | num (n : PyNum)
  | str (s : String)
  deriving DecidableEq

/-- Python truthiness of an optional numeric value: `None` is falsy and
a number is truthy iff it is non-zero. -/
def pyTruthy : Option PyNum → Bool
  | none => false
  | some (.int z) => z != 0
  | some (.float q) => q != 0

/-- Python `!= 0` on an optional numeric value (`None != 0` is `True`). -/
def pyNeZero : Option PyNum → Bool
  | none => true
  | some n => n.toRat != 0

/-- Numeric reading of a dict value; the `none` branch never reaches
arithmetic in the embedded code because every use is guarded by
`pyTruthy`. -/
def valRat : Option PyNum → ℚ
  | none => 0
  | some n => n.toRat

/-- Lexicographic comparison of code-point lists: the order Python uses
on strings. -/
def charListLe : List Char → List Char → Bool
  | [], _ => true
  | _ :: _, [] => false
  | a :: as, b :: bs =>
    if a.toNat < b.toNat then true
    else if b.toNat < a.toNat then false
    else charListLe as bs

/-- Python `s1 <= s2` on strings (code-point lexicographic order). -/
def strLeb (a b : String) : Bool := charListLe a.data b.data

/-- Insert a string into an already sorted list, before any equal
element — the stable placement Python's sort produces. -/
def insertStr (x : String) : List String → List String
  | [] => [x]
  | y :: ys => if strLeb x y then x :: y :: ys else y :: insertStr x ys

/-- Python `sorted(...)` on a list of strings: stable sort by
code-point lexicographic order. -/
def pySorted : List String → List String
  | [] => []
  | x :: xs => insertStr x (pySorted xs)

/-- ASCII lowering of one character — the effect of Python's
`str.lower()` on the country codes this program handles. -/
def charToLower (c : Char) : Char :=
  if 65 ≤ c.toNat ∧ c.toNat ≤ 90 then Char.ofNat (c.toNat + 32) else c

/-- Python `s.lower()` (ASCII; country codes and names are ASCII). -/
def strToLower (s : String) : String := ⟨s.data.map charToLower⟩

/-- Python dict indexing `volumes[key]` on the monthly-volume dict
(first binding wins; the program's dicts have unique keys). -/
def dictGet (volumes : List (String × Option PyNum)) (key : String) : Option PyNum :=
  match volumes with
  | [] => none
  | (k, v) :: rest => if k = key then v else dictGet rest key

/-- The loop of `calculate_monthly_percentage_change` (lines 116-120):
walk the sorted month keys and, for each adjacent pair passing the guard
`volumes[m0] and volumes[m1] and volumes[m0] != 0`, append the change
`(volumes[m1] - volumes[m0]) / volumes[m0] * 100`. -/
def adjacentChanges (get : String → Option PyNum) : List String → List ℚ
  | a :: b :: rest =>
    (if pyTruthy (get a) && pyTruthy (get b) && pyNeZero (get a) then
      [(valRat (get b) - valRat (get a)) / valRat (get a) * 100]
    else []) ++ adjacentChanges get (b :: rest)
  | _ => []

/-- `calculate_monthly_percentage_change` — the second (shadowing)
definition at lines 112-123: sort the dict keys with Python `sorted`,
collect the guarded adjacent changes, and return their mean, or the
missing marker (`none` embeds `'N/A'`) when no change was collected. -/
def calculate_monthly_percentage_change
    (volumes : List (String × Option PyNum)) : Option ℚ :=
  let months := pySorted (volumes.map Prod.fst)
  let changes := adjacentChanges (dictGet volumes) months
  if changes.isEmpty then none else some (changes.sum / (changes.length : ℚ))

/-- The first definition of `calculate_monthly_percentage_change`
(lines 99-110), shadowed by the second; its body is embedded separately
and verbatim so the two can be compared. -/
def calculate_monthly_percentage_change_first
    (volumes : List (String × Option PyNum)) : Option ℚ :=
  let months := pySorted (volumes.map Prod.fst)
  let changes := adjacentChanges (dictGet volumes) months
  if changes.isEmpty then none else some (changes.sum / (changes.length : ℚ))

/-- Python `round` on an exact value: round half to even
(`Int.fdiv q.num q.den` is `⌊q⌋`, since `q.den > 0`). -/
def pyRound (q : ℚ) : ℤ :=
  let f := Int.fdiv q.num (q.den : ℤ)
  let r := q - (f : ℚ)
  if r < 1/2 then f
  else if (1/2 : ℚ) < r then f + 1
  else if Int.emod f 2 = 0 then f else f + 1

/-- Line 181: `[v for v in monthly_volumes.values() if isinstance(v, int)]` —
keeps only the `int` values, dropping floats and `None`. -/
def monthlyIntVolumes (monthly_volumes : List (String × Option PyNum)) : List ℤ :=
  monthly_volumes.filterMap fun p =>
    match p.2 with
    | some (.int z) => some z
    | _ => none

/-- Lines 181-182: the `'Average Monthly Search in Date Range'` value —
`round(sum(volumes) / len(volumes)) if volumes else 0` over the
`isinstance(v, int)`-filtered monthly volumes. -/
def average_monthly_search (monthly_volumes : List (String × Option PyNum)) : ℤ :=
  let volumes := monthlyIntVolumes monthly_volumes
  if volumes.isEmpty then 0
  else pyRound ((volumes.sum : ℚ) / (volumes.length : ℚ))

/-- Python `str(x)` of the value `calculate_monthly_percentage_change`
returns: the missing marker prints as `'N/A'`; a numeric result prints
as a fraction of its numerator and denominator (the exact digit string
of Python's float repr is abstracted; no property proved here depends
on it). -/
def resultStr : Option ℚ → String
  | none => "N/A"
  | some q => toString q.num ++ "/" ++ toString q.den

/-- Lines 186-187: the `'Average Monthly % Change'` cell —
`f"{calculate_monthly_percentage_change(monthly_volumes)}%"`. -/
def avg_monthly_pct_change_cell
    (monthly_volumes : List (String × Option PyNum)) : String :=
  resultStr (calculate_monthly_percentage_change monthly_volumes) ++ "%"

/-- Three consecutive months with volumes 100, 0, 50 — the series of
claim C1's example. -/
def exMonths100_0_50 : List (String × Option PyNum) :=
  [("Jan 2023", some (.int 100)), ("Feb 2023", some (.int 0)),
   ("Mar 2023", some (.int 50))]

/-- Volumes 100, 0, 50 on months whose labels also sort
lexicographically in chronological order, isolating the zero-value
guard from the sorting of labels. -/
def exMonthsChrono100_0_50 : List (String × Option PyNum) :=
  [("Apr 2023", some (.int 100)), ("Aug 2023", some (.int 0)),
   ("Dec 2023", some (.int 50))]

/-- Two months: January 100, February 200. -/
def exMonthsJanFeb : List (String × Option PyNum) :=
  [("Jan 2023", some (.int 100)), ("Feb 2023", some (.int 200))]

/-- A single month carrying the float volume 100.5. -/
def exMonthFloat : List (String × Option PyNum) :=
  [("Jan 2023", some (.float (201 / 2)))]

/-- Calendar months as a single index: `year * 12 + (month - 1)`.
The code's date handling keeps only month granularity after
`strftime('%b %Y')`, so dates are embedded at that granularity. -/
def ymIdx (year month : ℤ) : ℤ := year * 12 + (month - 1)

/-- The `%b` month abbreviation for a month number in `0..11`. -/
def monthAbbrev (m : ℤ) : String :=
  if m = 0 then "Jan" else if m = 1 then "Feb" else if m = 2 then "Mar"
  else if m = 3 then "Apr" else if m = 4 then "May" else if m = 5 then "Jun"
  else if m = 6 then "Jul" else if m = 7 then "Aug" else if m = 8 then "Sep"
  else if m = 9 then "Oct" else if m = 10 then "Nov" else "Dec"

/-- `metric_date.strftime('%b %Y')` (line 88) on a month index. -/
def dateLabel (idx : ℤ) : String :=
  monthAbbrev (Int.emod idx 12) ++ " " ++ toString (Int.ediv idx 12)

/-- One entry of the volume-history response's `metrics` array: a dated
volume observation. -/
structure HistoryMetric where
  date : ℤ
  volume : Option PyNum
  deriving DecidableEq

/-- The window test of line 87:
`start_date is None or end_date is None or (start_date <= metric_date <= end_date)`. -/
def inWindow (start_date end_date : Option ℤ) (d : ℤ) : Bool :=
  match start_date, end_date with
  | some s, some e => decide (s ≤ d) && decide (d ≤ e)
  | _, _ => true

/-- The `filtered_data` accumulation of `fetch_ahrefs_volume_history`
(lines 85-91), with entries keyed by date: metrics are kept in response
order when they pass the window test; nothing is added for months absent
from the response. -/
def historyFilteredData (metrics : List HistoryMetric)
    (start_date end_date : Option ℤ) : List (ℤ × Option PyNum) :=
  (metrics.filter (fun m => inWindow start_date end_date m.date)).map
    (fun m => (m.date, m.volume))

/-- The same series under its output labels
`f"Ahrefs Search Volume: {date_str}"` (line 90). -/
def historySeries (metrics : List HistoryMetric)
    (start_date end_date : Option ℤ) : List (String × Option PyNum) :=
  (historyFilteredData metrics start_date end_date).map
    (fun p => ("Ahrefs Search Volume: " ++ dateLabel p.1, p.2))

/-- All month indices of the inclusive range `[s, e]` in chronological
order — the months a complete series over the range would carry. -/
def monthsRange (s e : ℤ) : List ℤ :=
  (List.range (Int.toNat (e - s + 1))).map (fun i => s + i)

/-- The query parameters `fetch_ahrefs_volume_data` sends (lines 17-22). -/
structure AhrefsRequest where
  output : String
  country : String
  keywords : String
  select : String
  deriving DecidableEq

/-- An HTTP response from the Ahrefs overview endpoint: the status code
and, for the success path, the parsed `keywords` array of the JSON body,
each keyword object an association of field name to value. -/
structure AhrefsResponse where
  status_code : ℕ
  keywords : List (List (String × Cell))
  deriving DecidableEq

/-- Python `d.get(key, 'N/A')` on a string-keyed record (first binding
wins; also the value an output cell receives when its column is absent
from the row, which `fillna('N/A')` turns into the marker). -/
def getCell (d : List (String × Cell)) (key : String) : Cell :=
  match d with
  | [] => .str "N/A"
  | (k, v) :: rest => if k = key then v else getCell rest key

/-- Request construction of `fetch_ahrefs_volume_data` (lines 17-22):
the `country` query parameter is built from the module-global
`country_code`, not from the function's `country` argument. -/
def ahrefs_request_params (keyword country country_code : String) : AhrefsRequest :=
  { output := "json"
    country := strToLower country_code
    keywords := keyword
    select := "volume,cpc,global_volume,difficulty" }

/-- Response handling of `fetch_ahrefs_volume_data` (lines 25-40): on
status 200 with a non-empty `keywords` array, the five documented fields
of its first element (absent fields default to `'N/A'`); on 200 with an
empty array, `{"volume": 'Not found'}`; otherwise
`{"volume": f'API request failed: {status}'}`. -/
def ahrefsResult (resp : AhrefsResponse) : List (String × Cell) :=
  if resp.status_code = 200 then
    match resp.keywords with
    | keyword_data :: _ =>
      [("volume", getCell keyword_data "volume"),
       ("cpc", getCell keyword_data "cpc"),
       ("global_volume", getCell keyword_data "global_volume"),
       ("cps", getCell keyword_data "cps"),
       ("difficulty", getCell keyword_data "difficulty")]
    | [] => [("volume", Cell.str "Not found")]
  else
    [("volume", Cell.str ("API request failed: " ++ toString resp.status_code))]

/-- `fetch_ahrefs_volume_data` (lines 13-40): build the request, let the
provider answer it, and shape the record from the response. -/
def fetch_ahrefs_volume_data (keyword country country_code : String)
    (respond : AhrefsRequest → AhrefsResponse) : List (String × Cell) :=
  ahrefsResult (respond (ahrefs_request_params keyword country country_code))

/-- Row fields written by `enhance_csv_with_detailed_volume` for the
Ahrefs source (lines 165-173): each output column takes
`ahrefs_data.get(field, 'N/A')`. -/
def ahrefsRowFields (ahrefs_data : List (String × Cell)) : List (String × Cell) :=
  [("Ahrefs Volume", getCell ahrefs_data "volume"),
   ("Ahrefs CPC", getCell ahrefs_data "cpc"),
   ("Ahrefs Global Volume", getCell ahrefs_data "global_volume"),
   ("Ahrefs CPS", getCell ahrefs_data "cps"),
   ("Ahrefs Difficulty", getCell ahrefs_data "difficulty")]

/-- The per-keyword loop of `enhance_keywords` (lines 128-143) composed
with the row building of lines 165-173: every keyword is processed in
turn, each from its own provider response. -/
def ahrefsBatchRows (respond : String → AhrefsResponse)
    (keywords : List String) : List (List (String × Cell)) :=
  keywords.map (fun kw => ahrefsRowFields (ahrefsResult (respond kw)))

/-- Modelled from the spec: `country_code_dict`, imported from the
repository's `country_codes` module, which is absent from `src/` — a
lookup table mapping ISO country code to display name (spec §6), with
"GB" naming "United Kingdom". -/
def country_code_dict : List (String × String) :=
  [("US", "United States"), ("GB", "United Kingdom"),
   ("FR", "France"), ("JP", "Japan")]

/-- Line 202: `next((code for code, name in country_code_dict.items()
if name == country), None)`. -/
def selected_country_code (country : String) : Option String :=
  (country_code_dict.find? (fun p => p.2 == country)).map Prod.fst

/-- Lines 203-206: `semrush_country_code = country_code.lower()`,
overridden to `"uk"` when the selected country is "United Kingdom". -/
def semrush_country_code_of (country country_code : String) : String :=
  if country == "United Kingdom" then "uk" else strToLower country_code

/-- The `database` request parameter of `fetch_semrush_volume_data`
(line 52): `semrush_country_code.lower()`. -/
def semrush_database_param (country country_code : String) : String :=
  strToLower (semrush_country_code_of country country_code)

/-- The `country` request parameter both Ahrefs endpoints send
(lines 19 and 77): `country_code.lower()`. -/
def ahrefs_country_param (country_code : String) : String :=
  strToLower country_code

/-- Column discovery of `pd.DataFrame(rows_list)`: fold one row's keys
into the running column list, keeping first-seen order and dropping
keys already present. -/
def addRowColumns (acc : List String) (row : List (String × Cell)) : List String :=
  row.foldl (fun cols p => if cols.contains p.1 then cols else cols ++ [p.1]) acc

/-- The DataFrame's column set: union of the rows' keys in discovery
order. -/
def discoveredColumns (rows : List (List (String × Cell))) : List String :=
  rows.foldl addRowColumns []

/-- Lines 193-194: `['Keyword'] + [col for col in final_df.columns if
col != 'Keyword']`. -/
def finalColumns (rows : List (List (String × Cell))) : List String :=
  "Keyword" :: (discoveredColumns rows).filter (fun c => c ≠ "Keyword")

/-- One CSV data row as `to_csv` emits it (line 196): one cell per final
column, a row's missing columns already filled with `'N/A'` by
`fillna` (line 192). -/
def renderRow (cols : List String) (row : List (String × Cell)) : List Cell :=
  cols.map (getCell row)

/-- The emitted table: the final column list as header plus one rendered
row per input row, in input order. -/
def renderTable (rows : List (List (String × Cell))) :
    List String × List (List Cell) :=
  (finalColumns rows, rows.map (renderRow (finalColumns rows)))

/-- History metrics for January and March 2023 only — February is absent
from the provider response. -/
def exMetricsGap : List HistoryMetric :=
  [⟨ymIdx 2023 1, some (.int 100)⟩, ⟨ymIdx 2023 3, some (.int 50)⟩]

/-- Two one-column rows as the row builder produces for two keywords. -/
def exRows : List (List (String × Cell)) :=
  [[("Keyword", Cell.str "boat")],
   [("Keyword", Cell.str "car"), ("Ahrefs Volume", Cell.num (.int 10))]]

/-- C1 counterexample: on the claim's own example — three consecutive
months with volumes 100, 0, 50 — the program returns -50%, not the
-100% the claim obtains by including the pair (100, 0). -/
theorem zero_adjacent_pair_counterexample :
    calculate_monthly_percentage_change exMonths100_0_50 = some (-50)
    ∧ some (-50 : ℚ) ≠ some (-100 : ℚ) := by
  constructor
  · simp only [calculate_monthly_percentage_change,
      (show pySorted (List.map Prod.fst exMonths100_0_50)
          = ["Feb 2023", "Jan 2023", "Mar 2023"] by decide),
      adjacentChanges,
      (show dictGet exMonths100_0_50 "Feb 2023" = some (PyNum.int 0) by decide),
      (show dictGet exMonths100_0_50 "Jan 2023" = some (PyNum.int 100) by decide),
      (show dictGet exMonths100_0_50 "Mar 2023" = some (PyNum.int 50) by decide),
      pyTruthy, pyNeZero, valRat, PyNum.toRat]
    norm_num
  · norm_num

/-- C1 (amended): an adjacent pair whose later value is zero or missing
fails the truthiness guard and contributes no change; on 100, 0, 50 over
months whose labels also sort chronologically both pairs are skipped and
the result is the missing marker, while on Jan-Mar 2023 (labels sorting
to Feb, Jan, Mar) the single passing pair yields -50%. -/
theorem later_zero_pair_skipped :
    (∀ (get : String → Option PyNum) (a b : String) (rest : List String),
      pyTruthy (get b) = false →
      adjacentChanges get (a :: b :: rest) = adjacentChanges get (b :: rest))
    ∧ calculate_monthly_percentage_change exMonthsChrono100_0_50 = none
    ∧ calculate_monthly_percentage_change exMonths100_0_50 = some (-50) := by
  refine ⟨?_, ?_, ?_⟩
  · intro get a b rest h
    simp [adjacentChanges, h]
  · simp only [calculate_monthly_percentage_change,
      (show pySorted (List.map Prod.fst exMonthsChrono100_0_50)
          = ["Apr 2023", "Aug 2023", "Dec 2023"] by decide),
      adjacentChanges,
      (show dictGet exMonthsChrono100_0_50 "Apr 2023" = some (PyNum.int 100) by decide),
      (show dictGet exMonthsChrono100_0_50 "Aug 2023" = some (PyNum.int 0) by decide),
      (show dictGet exMonthsChrono100_0_50 "Dec 2023" = some (PyNum.int 50) by decide),
      pyTruthy, pyNeZero, valRat, PyNum.toRat]
    norm_num
  · simp only [calculate_monthly_percentage_change,
      (show pySorted (List.map Prod.fst exMonths100_0_50)
          = ["Feb 2023", "Jan 2023", "Mar 2023"] by decide),
      adjacentChanges,
      (show dictGet exMonths100_0_50 "Feb 2023" = some (PyNum.int 0) by decide),
      (show dictGet exMonths100_0_50 "Jan 2023" = some (PyNum.int 100) by decide),
      (show dictGet exMonths100_0_50 "Mar 2023" = some (PyNum.int 50) by decide),
      pyTruthy, pyNeZero, valRat, PyNum.toRat]
    norm_num

/-- C1 witness: the guard lemma applied at a concrete pair whose later
value is zero. -/
theorem later_zero_pair_skipped_witness :
    adjacentChanges (dictGet exMonthsChrono100_0_50) ["Apr 2023", "Aug 2023"]
      = adjacentChanges (dictGet exMonthsChrono100_0_50) ["Aug 2023"] :=
  later_zero_pair_skipped.1 (dictGet exMonthsChrono100_0_50)
    "Apr 2023" "Aug 2023" [] (by decide)

/-- C2: the code filters monthly values with `isinstance(v, int)` and
defaults an empty filtered list to 0 — a lone float volume 100.5 is
dropped and the cell becomes 0 instead of the mean 100.5, and an empty
series also yields 0 rather than the missing marker. -/
theorem average_monthly_search_defect_eval :
    monthlyIntVolumes exMonthFloat = []
    ∧ average_monthly_search exMonthFloat = 0
    ∧ average_monthly_search [] = 0 :=
  ⟨by decide, by decide, by decide⟩

/-- C3 counterexample: with the range Jan-Mar 2023 requested and a
response carrying only January and March, the series keeps exactly those
two months — the range spans three months and February is silently
dropped, not filled with a missing marker. -/
theorem history_gap_counterexample :
    (historyFilteredData exMetricsGap (some (ymIdx 2023 1))
        (some (ymIdx 2023 3))).map Prod.fst = [ymIdx 2023 1, ymIdx 2023 3]
    ∧ monthsRange (ymIdx 2023 1) (ymIdx 2023 3)
        = [ymIdx 2023 1, ymIdx 2023 2, ymIdx 2023 3]
    ∧ ¬((historyFilteredData exMetricsGap (some (ymIdx 2023 1))
          (some (ymIdx 2023 3))).map Prod.fst
        = monthsRange (ymIdx 2023 1) (ymIdx 2023 3)) := by
  refine ⟨by decide, by decide, by decide⟩

/-- The months kept by the history filter are exactly the response's
dates that pass the window test, in response order. -/
theorem historyFilteredData_map_fst (metrics : List HistoryMetric)
    (s e : Option ℤ) :
    (historyFilteredData metrics s e).map Prod.fst
      = (metrics.map HistoryMetric.date).filter (fun d => inWindow s e d) := by
  induction metrics with
  | nil => rfl
  | cons m rest ih =>
    by_cases hm : inWindow s e m.date = true
    · simpa [historyFilteredData, List.filter_cons, hm] using ih
    · simpa [historyFilteredData, List.filter_cons, hm] using ih

/-- C3 (amended): the series consists of exactly the response's months
that fall inside the inclusive window, in response order — strictly
increasing whenever the response dates are — and months of the requested
range absent from the response are dropped rather than filled with a
missing marker. -/
theorem history_series_is_window_filter (metrics : List HistoryMetric)
    (s e : ℤ) :
    (historyFilteredData metrics (some s) (some e)).map Prod.fst
      = (metrics.map HistoryMetric.date).filter
          (fun d => inWindow (some s) (some e) d)
    ∧ (List.Chain' (· < ·) (metrics.map HistoryMetric.date) →
        List.Chain' (· < ·)
          ((historyFilteredData metrics (some s) (some e)).map Prod.fst)) := by
  refine ⟨historyFilteredData_map_fst metrics (some s) (some e), fun h => ?_⟩
  rw [historyFilteredData_map_fst metrics (some s) (some e)]
  exact h.sublist (List.filter_sublist _)

/-- C3 witness: the window-filter characterization applied to the
two-month response, whose dates are strictly increasing. -/
theorem history_series_is_window_filter_witness :
    List.Chain' (· < ·)
      ((historyFilteredData exMetricsGap (some (ymIdx 2023 1))
          (some (ymIdx 2023 3))).map Prod.fst) :=
  (history_series_is_window_filter exMetricsGap (ymIdx 2023 1)
      (ymIdx 2023 3)).2 (List.chain'_pair.mpr (by decide))

/-- C4 counterexample: after a status-500 Ahrefs response, the row's
'Ahrefs Volume' cell carries the failure text, not the missing
marker. -/
theorem ahrefs_failure_counterexample :
    getCell (ahrefsRowFields (ahrefsResult ⟨500, []⟩)) "Ahrefs Volume"
      = Cell.str "API request failed: 500"
    ∧ Cell.str "API request failed: 500" ≠ Cell.str "N/A" := by
  refine ⟨by decide, by decide⟩

/-- C4 (amended): a non-success provider status aborts nothing — every
keyword still yields a row — and the failed keyword's Ahrefs columns are
the missing marker except 'Ahrefs Volume', which carries the failure
text `API request failed: <status>`. -/
theorem ahrefs_failure_fields (resp : AhrefsResponse)
    (h : resp.status_code ≠ 200) (respond : String → AhrefsResponse)
    (keywords : List String) :
    ahrefsRowFields (ahrefsResult resp)
      = [("Ahrefs Volume",
            Cell.str ("API request failed: " ++ toString resp.status_code)),
         ("Ahrefs CPC", Cell.str "N/A"),
         ("Ahrefs Global Volume", Cell.str "N/A"),
         ("Ahrefs CPS", Cell.str "N/A"),
         ("Ahrefs Difficulty", Cell.str "N/A")]
    ∧ (ahrefsBatchRows respond keywords).length = keywords.length := by
  constructor
  · simp [ahrefsRowFields, ahrefsResult, getCell, h]
  · simp [ahrefsBatchRows]

/-- C4 witness: the failure-row description applied to a concrete 500
response shared by the keywords "boat" and "car". -/
theorem ahrefs_failure_fields_witness :
    ahrefsRowFields (ahrefsResult ⟨500, []⟩)
      = [("Ahrefs Volume", Cell.str ("API request failed: " ++ toString (500 : ℕ))),
         ("Ahrefs CPC", Cell.str "N/A"),
         ("Ahrefs Global Volume", Cell.str "N/A"),
         ("Ahrefs CPS", Cell.str "N/A"),
         ("Ahrefs Difficulty", Cell.str "N/A")]
    ∧ (ahrefsBatchRows (fun _ => ⟨500, []⟩) ["boat", "car"]).length
        = (["boat", "car"] : List String).length :=
  ahrefs_failure_fields ⟨500, []⟩ (by decide) (fun _ => ⟨500, []⟩) ["boat", "car"]

/-- C5: `sorted()` on 'Mon YYYY' labels is lexicographic, not
chronological, contradicting the code's own comment: January 2023
precedes February 2023 chronologically, yet the sorted key order is Feb,
Jan, and on {Jan 2023: 100, Feb 2023: 200} the code averages the
backwards pair Feb→Jan to -50% where the chronological pair gives
+100%. -/
theorem months_sorted_lexicographically_eval :
    dateLabel (ymIdx 2023 1) = "Jan 2023"
    ∧ dateLabel (ymIdx 2023 2) = "Feb 2023"
    ∧ ymIdx 2023 1 < ymIdx 2023 2
    ∧ pySorted ["Jan 2023", "Feb 2023"] = ["Feb 2023", "Jan 2023"]
    ∧ calculate_monthly_percentage_change exMonthsJanFeb = some (-50) := by
  refine ⟨by decide, by decide, by decide, by decide, ?_⟩
  simp only [calculate_monthly_percentage_change,
    (show pySorted (List.map Prod.fst exMonthsJanFeb)
        = ["Feb 2023", "Jan 2023"] by decide),
    adjacentChanges,
    (show dictGet exMonthsJanFeb "Feb 2023" = some (PyNum.int 200) by decide),
    (show dictGet exMonthsJanFeb "Jan 2023" = some (PyNum.int 100) by decide),
    pyTruthy, pyNeZero, valRat, PyNum.toRat]
  norm_num

/-- C6: the selected country "United Kingdom" resolves to code "GB",
the SEMrush database parameter becomes "uk" while both Ahrefs requests
carry "gb", and for every other country of the lookup table the two
providers receive the same lowercased code. -/
theorem gb_uk_country_translation :
    (selected_country_code "United Kingdom" = some "GB"
     ∧ semrush_database_param "United Kingdom" "GB" = "uk"
     ∧ ahrefs_country_param "GB" = "gb")
    ∧ ∀ p ∈ country_code_dict, p.2 ≠ "United Kingdom" →
        semrush_database_param p.2 p.1 = ahrefs_country_param p.1 := by
  refine ⟨⟨by decide, by decide, by decide⟩, by decide⟩

/-- C6 witness: the agreement of the two providers' codes at the
concrete entry for the United States. -/
theorem gb_uk_country_translation_witness :
    semrush_database_param "United States" "US" = ahrefs_country_param "US" :=
  gb_uk_country_translation.2 ("US", "United States") (by decide) (by decide)

/-- A key absent from a record makes `get` return the `'N/A'` default. -/
theorem getCell_of_absent_column : ∀ (row : List (String × Cell)) (col : String),
    (∀ p ∈ row, p.1 ≠ col) → getCell row col = Cell.str "N/A"
  | [], _, _ => rfl
  | p :: rest, col, habs => by
    have hp : p.1 ≠ col := habs p (List.mem_cons_self p rest)
    have hstep : getCell (p :: rest) col = getCell rest col := by
      simp [getCell, hp]
    rw [hstep]
    exact getCell_of_absent_column rest col
      (fun q hq => habs q (List.mem_cons_of_mem p hq))

/-- C7: the emitted table's first header column is 'Keyword', every
rendered data row has exactly one cell per header column, and a column a
row lacks renders as the literal missing marker 'N/A'. -/
theorem csv_table_shape (rows : List (List (String × Cell))) :
    (finalColumns rows).head? = some "Keyword"
    ∧ (∀ row ∈ rows,
        (renderRow (finalColumns rows) row).length = (finalColumns rows).length)
    ∧ (∀ row ∈ rows, ∀ col, (∀ p ∈ row, p.1 ≠ col) →
        getCell row col = Cell.str "N/A") :=
  ⟨rfl, fun row _ => List.length_map _ _,
    fun row _ col habs => getCell_of_absent_column row col habs⟩

/-- C7 witness: the shape theorem applied to two concrete rows; the
column the first row lacks renders as 'N/A'. -/
theorem csv_table_shape_witness :
    getCell [("Keyword", Cell.str "boat")] "Ahrefs Volume" = Cell.str "N/A" :=
  (csv_table_shape exRows).2.2 [("Keyword", Cell.str "boat")] (by decide)
    "Ahrefs Volume" (by decide)

/-- C8: the first definition of `calculate_monthly_percentage_change`
and the second, which shadows it, agree on every input. -/
theorem duplicate_definitions_agree (volumes : List (String × Option PyNum)) :
    calculate_monthly_percentage_change_first volumes
      = calculate_monthly_percentage_change volumes := rfl

/-- C8 witness: the two definitions agree at a concrete series. -/
theorem duplicate_definitions_agree_witness :
    calculate_monthly_percentage_change_first exMonthsJanFeb
      = calculate_monthly_percentage_change exMonthsJanFeb :=
  duplicate_definitions_agree exMonthsJanFeb

/-- C9: `fetch_ahrefs_volume_data` ignores its `country` argument — two
calls differing only there produce the same record from the same
response — because the request's country parameter is built from the
module-global `country_code`. -/
theorem ahrefs_country_argument_unused (keyword c1 c2 country_code : String)
    (respond : AhrefsRequest → AhrefsResponse) :
    fetch_ahrefs_volume_data keyword c1 country_code respond
      = fetch_ahrefs_volume_data keyword c2 country_code respond
    ∧ (ahrefs_request_params keyword c1 country_code).country
        = strToLower country_code :=
  ⟨rfl, rfl⟩

/-- C9 witness: two concrete calls differing only in the country
argument yield the same record. -/
theorem ahrefs_country_argument_unused_witness :
    fetch_ahrefs_volume_data "boat" "us" "GB" (fun _ => ⟨500, []⟩)
      = fetch_ahrefs_volume_data "boat" "fr" "GB" (fun _ => ⟨500, []⟩)
    ∧ (ahrefs_request_params "boat" "us" "GB").country = strToLower "GB" :=
  ahrefs_country_argument_unused "boat" "us" "fr" "GB" (fun _ => ⟨500, []⟩)

/-- C10: the 'Average Monthly % Change' cell always carries a '%'
suffix, and when no valid adjacent pair exists it is the string 'N/A%',
not the bare marker 'N/A'. -/
theorem pct_change_cell_suffix (monthly_volumes : List (String × Option PyNum)) :
    (∃ s, avg_monthly_pct_change_cell monthly_volumes = s ++ "%")
    ∧ (calculate_monthly_percentage_change monthly_volumes = none →
        avg_monthly_pct_change_cell monthly_volumes = "N/A%") := by
  refine ⟨⟨resultStr (calculate_monthly_percentage_change monthly_volumes), rfl⟩,
    fun h => ?_⟩
  show resultStr (calculate_monthly_percentage_change monthly_volumes) ++ "%" = "N/A%"
  rw [h]
  decide

/-- C10 witness: on an empty series no valid pair exists and the cell is
'N/A%'. -/
theorem pct_change_cell_suffix_witness :
    avg_monthly_pct_change_cell [] = "N/A%" :=
  (pct_change_cell_suffix []).2 (by decide)
